import Mathlib

/-!
Verification development for the py2to3 MCP server
(`py2to3_server.py`, `filesystem_server.py`).

The core of the server is a lexical, per-line, regex-based scanner for
Python-2 constructs.  We embed the regular-expression dialect actually used
by the pattern tables (character classes, `*`/`+`/`{2,}` repetition,
alternation, `^`, `\b`, fixed-width negative lookbehind, negative
lookahead) as a small executable matcher with `re.search` semantics, and
embed each pattern table entry as a term of that language, translated
regex-token by regex-token from the source strings.
-/

/-- `\w` (ASCII word character, as used by the source patterns). -/
def isWordChar (c : Char) : Bool := c.isAlphanum || c == '_'

/-- `\s` (Python whitespace class). -/
def isSpaceChar (c : Char) : Bool :=
  c == ' ' || c == '\t' || c == '\n' || c == '\r' ||
  c == Char.ofNat 11 || c == Char.ofNat 12

/-- Regular expressions, restricted to the constructs occurring in the
pattern registries of `py2to3_server.py`:
single-character classes, concatenation, alternation, Kleene star,
start-of-input `^`, word boundary `\b`, negative lookahead `(?!...)` and
fixed-width negative lookbehind `(?<!...)`. -/
inductive RE : Type where
  | eps : RE
  | cls : (Char → Bool) → RE
  | cat : RE → RE → RE
  | alt : RE → RE → RE
  | star : RE → RE
  | bol : RE
  | wb : RE
  | nla : RE → RE
  | nlb : Nat → (List Char → Bool) → RE

/-- Is position `i` a `\b` word boundary of `s`? -/
def atWordB (s : List Char) (i : Nat) : Bool :=
  (if i = 0 then false else match s[i-1]? with
    | some c => isWordChar c
    | none => false) !=
  (match s[i]? with
    | some c => isWordChar c
    | none => false)

/-- Iterate a one-step end-position function, as Kleene star does.  Only
iterations that strictly advance the position are taken (an iteration of a
star that matches the empty string does not change the set of reachable
end positions), so `fuel = s.length + 1` is always enough. -/
def starEnds (f : Nat → List Nat) : Nat → Nat → List Nat
  | 0, i => [i]
  | fuel + 1, i =>
      i :: ((f i).filter (fun j => i < j)).flatMap (fun j => starEnds f fuel j)

/-- All positions at which a match of `r` that starts at position `i` of
`s` can end.  The whole input `s` stays in scope so that `\b`, lookbehind
and lookahead can inspect the context of the current position. -/
def ends (s : List Char) (fuel : Nat) : RE → Nat → List Nat
  | RE.eps, i => [i]
  | RE.cls p, i =>
      match s[i]? with
      | some c => if p c then [i + 1] else []
      | none => []
  | RE.cat a b, i => (ends s fuel a i).flatMap (fun j => ends s fuel b j)
  | RE.alt a b, i => ends s fuel a i ++ ends s fuel b i
  | RE.star a, i => starEnds (ends s fuel a) fuel i
  | RE.bol, i => if i = 0 then [i] else []
  | RE.wb, i => if atWordB s i then [i] else []
  | RE.nla a, i => if (ends s fuel a i).isEmpty then [i] else []
  | RE.nlb w t, i =>
      if w ≤ i && t ((s.take i).drop (i - w)) then [] else [i]

/-- `re.search` semantics: does `r` match starting at some position of `s`? -/
def reSearch (r : RE) (s : List Char) : Bool :=
  (List.range (s.length + 1)).any
    (fun i => !(ends s (s.length + 1) r i).isEmpty)

/-- A single literal character. -/
def patChr (c : Char) : RE := RE.cls (fun x => x == c)

/-- A literal string (concatenation of its characters). -/
def patStr (s : String) : RE := s.data.foldr (fun c r => RE.cat (patChr c) r) RE.eps

/-- `r+` as `r r*`. -/
def patPlus (r : RE) : RE := RE.cat r (RE.star r)

/-- Concatenation of a sequence of regex fragments. -/
def seqP (l : List RE) : RE := l.foldr RE.cat RE.eps

/-- `\s` as a class. -/
def clsWs : RE := RE.cls isSpaceChar

/-- `\w` as a class. -/
def clsW : RE := RE.cls isWordChar

/-- `\d` as a class. -/
def clsD : RE := RE.cls Char.isDigit

/-- `\s*`. -/
def wsStar : RE := RE.star clsWs

/-- `\s+`. -/
def wsPlus : RE := patPlus clsWs

/-- One-character negative lookbehind `(?<!c)` for a class `p`. -/
def lb1 (p : Char → Bool) : RE :=
  RE.nlb 1 (fun l => match l with | [c] => p c | _ => false)

/-- Membership of a character in a literal class string. -/
def charIn (s : String) (c : Char) : Bool := s.data.any (fun d => d == c)

/-- Python substring containment (`needle in hay`). -/
def strContains (hay needle : String) : Bool :=
  (List.range (hay.data.length + 1)).any
    (fun i => needle.data.isPrefixOf (hay.data.drop i))

/-- Python `str.startswith(pre)`. -/
def pyStartsWith (s pre : String) : Bool := pre.data.isPrefixOf s.data

/-- Python `str.endswith(suf)`. -/
def pyEndsWith (s suf : String) : Bool := suf.data.isSuffixOf s.data

/-- Helper for `splitNl`. -/
def splitNlAux : List Char → List Char → List String
  | [], acc => [String.mk acc.reverse]
  | '\n' :: rest, acc => String.mk acc.reverse :: splitNlAux rest []
  | c :: rest, acc => splitNlAux rest (c :: acc)

/-- Python `str.split('\n')`. -/
def splitNl (s : String) : List String := splitNlAux s.data []

/-- Helper for `readLines`. -/
def readLinesAux : List Char → List Char → List String
  | [], [] => []
  | [], acc => [String.mk acc.reverse]
  | '\n' :: rest, acc => String.mk (acc.reverse ++ ['\n']) :: readLinesAux rest []
  | c :: rest, acc => readLinesAux rest (c :: acc)

/-- Python `f.readlines()`: split into lines keeping the newline. -/
def readLines (s : String) : List String := readLinesAux s.data []

/-- Python `str.strip()`. -/
def pyStrip (s : String) : String :=
  String.mk (((s.data.dropWhile isSpaceChar).reverse.dropWhile isSpaceChar).reverse)

/-- 1-based enumeration, as in `enumerate(lines, 1)`. -/
def enum1 {α : Type} (l : List α) : List (Nat × α) :=
  l.enum.map (fun p => (p.1 + 1, p.2))

/-! ## The pattern registries

Each definition below is the translation of one regex string of
`py2to3_server.py`.  `PY2_PATTERNS` (the description-oriented view, lines
157-212) and `COMPAT_PATTERNS` (the structured category/severity/code view
inside the `scan_compat` handler, lines 1535-1787) share most regexes; a
shared regex is defined once and referenced from both tables. -/

/-- `^[^#]*\bprint\s+[^(=]` -/
def patPrintStmt : RE :=
  seqP [RE.bol, RE.star (RE.cls (fun c => !(c == '#'))), RE.wb, patStr "print",
    wsPlus, RE.cls (fun c => !(c == '(') && !(c == '='))]

/-- `\braw_input\s*\(` -/
def patRawInput : RE := seqP [RE.wb, patStr "raw_input", wsStar, patChr '(']

/-- `\bexecfile\s*\(` -/
def patExecfile : RE := seqP [RE.wb, patStr "execfile", wsStar, patChr '(']

/-- `\bu["\']` -/
def patUnicodeLit : RE :=
  seqP [RE.wb, patChr 'u', RE.cls (fun c => c == '"' || c == Char.ofNat 39)]

/-- `\bunicode\s*\(` -/
def patUnicodeType : RE := seqP [RE.wb, patStr "unicode", wsStar, patChr '(']

/-- `\bbasestring\b` -/
def patBasestring : RE := seqP [RE.wb, patStr "basestring", RE.wb]

/-- `` `[^`]+` `` -/
def patBackticks : RE :=
  seqP [patChr (Char.ofNat 96),
    patPlus (RE.cls (fun c => !(c == Char.ofNat 96))), patChr (Char.ofNat 96)]

/-- `[0-9a-fA-F]` -/
def clsHex : RE :=
  RE.cls (fun c => c.isDigit ||
    (Nat.ble 97 c.toNat && Nat.ble c.toNat 102) ||
    (Nat.ble 65 c.toNat && Nat.ble c.toNat 70))

/-- `(?:\d+|0[xX][0-9a-fA-F]+)[lL]\b` -/
def patLongSuffix : RE :=
  seqP [RE.alt (patPlus clsD)
      (seqP [patChr '0', RE.cls (fun c => c == 'x' || c == 'X'), patPlus clsHex]),
    RE.cls (fun c => c == 'l' || c == 'L'), RE.wb]

/-- `(?<!\w)0\d{2,}(?![xXbBoOlL])\b` -/
def patOldOctal : RE :=
  seqP [lb1 isWordChar, patChr '0', clsD, clsD, RE.star clsD,
    RE.nla (RE.cls (charIn "xXbBoOlL")), RE.wb]

/-- `\bxrange\s*\(` -/
def patXrange : RE := seqP [RE.wb, patStr "xrange", wsStar, patChr '(']

/-- `(?<![\.\w])reduce\s*\(` -/
def patReduce : RE :=
  seqP [lb1 (fun c => c == '.' || isWordChar c), patStr "reduce", wsStar, patChr '(']

/-- `(?<!\w)apply\s*\(` -/
def patApply : RE := seqP [lb1 isWordChar, patStr "apply", wsStar, patChr '(']

/-- `\bcmp\s*[(\=]` (the `PY2_PATTERNS` version: `cmp(` or `cmp=`) -/
def patCmpPy2 : RE :=
  seqP [RE.wb, patStr "cmp", wsStar, RE.cls (fun c => c == '(' || c == '=')]

/-- `\bcmp\s*\(` (the `COMPAT_PATTERNS` version) -/
def patCmpCompat : RE := seqP [RE.wb, patStr "cmp", wsStar, RE.cls (fun c => c == '(')]

/-- `\bcoerce\s*\(` -/
def patCoerce : RE := seqP [RE.wb, patStr "coerce", wsStar, patChr '(']

/-- `(?<!sys\.)intern\s*\(` -/
def patIntern : RE :=
  seqP [RE.nlb 4 (fun l => l == "sys.".data), patStr "intern", wsStar, patChr '(']

/-- `(?<!\w)file\s*\(` -/
def patFileBuiltin : RE := seqP [lb1 isWordChar, patStr "file", wsStar, patChr '(']

/-- `(?<!\w)buffer\s*\(` -/
def patBufferBuiltin : RE := seqP [lb1 isWordChar, patStr "buffer", wsStar, patChr '(']

/-- `\.iteritems\s*\(` -/
def patIteritems : RE := seqP [patChr '.', patStr "iteritems", wsStar, patChr '(']

/-- `\.iterkeys\s*\(` -/
def patIterkeys : RE := seqP [patChr '.', patStr "iterkeys", wsStar, patChr '(']

/-- `\.itervalues\s*\(` -/
def patItervalues : RE := seqP [patChr '.', patStr "itervalues", wsStar, patChr '(']

/-- `\.has_key\s*\(` -/
def patHasKey : RE := seqP [patChr '.', patStr "has_key", wsStar, patChr '(']

/-- `\.viewitems\s*\(` -/
def patViewitems : RE := seqP [patChr '.', patStr "viewitems", wsStar, patChr '(']

/-- `\.viewkeys\s*\(` -/
def patViewkeys : RE := seqP [patChr '.', patStr "viewkeys", wsStar, patChr '(']

/-- `\.viewvalues\s*\(` -/
def patViewvalues : RE := seqP [patChr '.', patStr "viewvalues", wsStar, patChr '(']

/-- `<>` -/
def patOldNe : RE := patStr "<>"

/-- `[\w.]` -/
def clsWDot : RE := RE.cls (fun c => isWordChar c || c == '.')

/-- `except\s+[\w.]+\s*,\s*\w+` -/
def patExceptComma : RE :=
  seqP [patStr "except", wsPlus, patPlus clsWDot, wsStar, patChr ',', wsStar,
    patPlus clsW]

/-- `raise\s+[\w.]+\s*,` -/
def patOldRaise : RE :=
  seqP [patStr "raise", wsPlus, patPlus clsWDot, wsStar, patChr ',']

/-- `(?<!\w)ConfigParser\b` -/
def patConfigMod : RE := seqP [lb1 isWordChar, patStr "ConfigParser", RE.wb]

/-- `(?<!\w)Queue\b` -/
def patQueueMod : RE := seqP [lb1 isWordChar, patStr "Queue", RE.wb]

/-- `\burllib2\b` -/
def patUrllib2 : RE := seqP [RE.wb, patStr "urllib2", RE.wb]

/-- `\burlparse\b` -/
def patUrlparse : RE := seqP [RE.wb, patStr "urlparse", RE.wb]

/-- `(?<!\w)StringIO\b` (the `PY2_PATTERNS` version) -/
def patStringioPy2 : RE := seqP [lb1 isWordChar, patStr "StringIO", RE.wb]

/-- `(?<!\w)StringIO\b(?!\.)` (the `COMPAT_PATTERNS` version: the
`PY2_PATTERNS` regex followed by a negative lookahead). -/
def patStringioCompat : RE := RE.cat patStringioPy2 (RE.nla (patChr '.'))

/-- `\bcStringIO\b` -/
def patCstringio : RE := seqP [RE.wb, patStr "cStringIO", RE.wb]

/-- `\bcPickle\b` -/
def patCpickle : RE := seqP [RE.wb, patStr "cPickle", RE.wb]

/-- `(?<!\w)Tkinter\b` -/
def patTkinter : RE := seqP [lb1 isWordChar, patStr "Tkinter", RE.wb]

/-- `\bcookielib\b` -/
def patCookielib : RE := seqP [RE.wb, patStr "cookielib", RE.wb]

/-- `(?<!\w)thread\b(?!ing)` -/
def patThreadMod : RE :=
  seqP [lb1 isWordChar, patStr "thread", RE.wb, RE.nla (patStr "ing")]

/-- `\bcommands\b` -/
def patCommandsMod : RE := seqP [RE.wb, patStr "commands", RE.wb]

/-- `\bHTMLParser\b` -/
def patHtmlMod : RE := seqP [RE.wb, patStr "HTMLParser", RE.wb]

/-- `\bhttplib\b` -/
def patHttplib : RE := seqP [RE.wb, patStr "httplib", RE.wb]

/-- `^[^#]*\bexec\s+[^(]` (only in `COMPAT_PATTERNS`) -/
def patExecStmt : RE :=
  seqP [RE.bol, RE.star (RE.cls (fun c => !(c == '#'))), RE.wb, patStr "exec",
    wsPlus, RE.cls (fun c => !(c == '('))]

/-- `PY2_PATTERNS` (`py2to3_server.py` lines 157-212), in source
(= dict insertion) order. -/
def PY2_PATTERNS : List (String × RE) :=
  [("print_statement", patPrintStmt),
   ("raw_input", patRawInput),
   ("execfile", patExecfile),
   ("unicode_literal", patUnicodeLit),
   ("unicode_type", patUnicodeType),
   ("basestring", patBasestring),
   ("backticks", patBackticks),
   ("long_suffix", patLongSuffix),
   ("old_octal", patOldOctal),
   ("xrange", patXrange),
   ("reduce", patReduce),
   ("apply", patApply),
   ("cmp_func", patCmpPy2),
   ("coerce", patCoerce),
   ("intern", patIntern),
   ("file_builtin", patFileBuiltin),
   ("buffer_builtin", patBufferBuiltin),
   ("iteritems", patIteritems),
   ("iterkeys", patIterkeys),
   ("itervalues", patItervalues),
   ("has_key", patHasKey),
   ("viewitems", patViewitems),
   ("viewkeys", patViewkeys),
   ("viewvalues", patViewvalues),
   ("old_ne", patOldNe),
   ("except_comma", patExceptComma),
   ("old_raise", patOldRaise),
   ("old_repr", patBackticks),
   ("configparser", patConfigMod),
   ("queue_module", patQueueMod),
   ("urllib2", patUrllib2),
   ("urlparse", patUrlparse),
   ("stringio", patStringioPy2),
   ("cstringio", patCstringio),
   ("cpickle", patCpickle),
   ("tkinter", patTkinter),
   ("http_cookiejar", patCookielib),
   ("thread_module", patThreadMod),
   ("commands_module", patCommandsMod),
   ("htmlparser", patHtmlMod),
   ("httplib", patHttplib)]

/-- One entry of `COMPAT_PATTERNS`: regex plus classification metadata
(stable code, message, suggested fix, severity, category). -/
structure CompatRule where
  pattern : RE
  code : String
  message : String
  suggested_fix : String
  severity : String
  category : String

def ruleXrange : CompatRule :=
  ⟨patXrange, "PY2-ITER-001", "xrange() is not available in Python 3",
   "Use range() instead", "error", "iterators"⟩

def ruleIteritems : CompatRule :=
  ⟨patIteritems, "PY2-ITER-002", "dict.iteritems() is not available in Python 3",
   "Use dict.items() instead", "error", "iterators"⟩

def ruleItervalues : CompatRule :=
  ⟨patItervalues, "PY2-ITER-003", "dict.itervalues() is not available in Python 3",
   "Use dict.values() instead", "error", "iterators"⟩

def ruleIterkeys : CompatRule :=
  ⟨patIterkeys, "PY2-ITER-004", "dict.iterkeys() is not available in Python 3",
   "Use dict.keys() instead", "error", "iterators"⟩

def ruleHasKey : CompatRule :=
  ⟨patHasKey, "PY2-ITER-005", "dict.has_key() is not available in Python 3",
   "Use 'key in dict' instead", "error", "iterators"⟩

def ruleUnicodeType : CompatRule :=
  ⟨patUnicodeType, "PY2-TYPE-001", "unicode() is not available in Python 3",
   "Use str() instead", "error", "text-types"⟩

def ruleLongType : CompatRule :=
  ⟨patLongSuffix, "PY2-TYPE-002", "Long integer suffix L is not valid in Python 3",
   "Remove the L suffix", "error", "text-types"⟩

def ruleBasestring : CompatRule :=
  ⟨patBasestring, "PY2-TYPE-003", "basestring is not available in Python 3",
   "Use str instead", "error", "text-types"⟩

def ruleUnicodeLit : CompatRule :=
  ⟨patUnicodeLit, "PY2-TYPE-004", "Unicode literal prefix u'' is unnecessary in Python 3",
   "Remove the u prefix (all strings are unicode in Python 3)", "info", "text-types"⟩

def ruleOldNe : CompatRule :=
  ⟨patOldNe, "PY2-OP-001", "<> comparison operator is not valid in Python 3",
   "Use != instead", "error", "operators"⟩

def ruleBackticks : CompatRule :=
  ⟨patBackticks, "PY2-OP-002", "Backticks for repr are not valid in Python 3",
   "Use repr() instead", "error", "operators"⟩

def rulePrintStmt : CompatRule :=
  ⟨patPrintStmt, "PY2-SYN-001", "Print statement syntax is not valid in Python 3",
   "Use print() function instead", "error", "syntax"⟩

def ruleExceptComma : CompatRule :=
  ⟨patExceptComma, "PY2-SYN-002", "Old except syntax with comma is not valid in Python 3",
   "Use 'except Exception as e:' instead", "error", "syntax"⟩

def ruleOldRaise : CompatRule :=
  ⟨patOldRaise, "PY2-SYN-003", "Old raise syntax is not valid in Python 3",
   "Use raise Exception('message') instead", "error", "syntax"⟩

def ruleExecStmt : CompatRule :=
  ⟨patExecStmt, "PY2-SYN-004", "exec statement syntax is not valid in Python 3",
   "Use exec() function instead", "error", "syntax"⟩

def ruleConfigMod : CompatRule :=
  ⟨patConfigMod, "PY2-LIB-001", "ConfigParser module was renamed in Python 3",
   "Use 'import configparser' instead", "error", "stdlib-move"⟩

def ruleStringio : CompatRule :=
  ⟨patStringioCompat, "PY2-LIB-002", "StringIO module was moved in Python 3",
   "Use 'from io import StringIO' instead", "error", "stdlib-move"⟩

def ruleCstringio : CompatRule :=
  ⟨patCstringio, "PY2-LIB-003", "cStringIO is not available in Python 3",
   "Use 'from io import StringIO' instead", "error", "stdlib-move"⟩

def ruleCpickle : CompatRule :=
  ⟨patCpickle, "PY2-LIB-004", "cPickle is not available in Python 3",
   "Use 'import pickle' instead (it's fast in Python 3)", "error", "stdlib-move"⟩

def ruleQueueMod : CompatRule :=
  ⟨patQueueMod, "PY2-LIB-005", "Queue module was renamed in Python 3",
   "Use 'import queue' instead", "error", "stdlib-move"⟩

def ruleUrllib2 : CompatRule :=
  ⟨patUrllib2, "PY2-LIB-006", "urllib2 is not available in Python 3",
   "Use urllib.request and urllib.error instead", "error", "stdlib-move"⟩

def ruleUrlparse : CompatRule :=
  ⟨patUrlparse, "PY2-LIB-007", "urlparse module was moved in Python 3",
   "Use urllib.parse instead", "error", "stdlib-move"⟩

def ruleHttplib : CompatRule :=
  ⟨patHttplib, "PY2-LIB-008", "httplib was renamed in Python 3",
   "Use http.client instead", "error", "stdlib-move"⟩

def ruleHtmlMod : CompatRule :=
  ⟨patHtmlMod, "PY2-LIB-009", "HTMLParser module was moved in Python 3",
   "Use html.parser instead", "error", "stdlib-move"⟩

def ruleRawInput : CompatRule :=
  ⟨patRawInput, "PY2-BUILTIN-001", "raw_input() is not available in Python 3",
   "Use input() instead", "error", "builtins"⟩

def ruleExecfile : CompatRule :=
  ⟨patExecfile, "PY2-BUILTIN-002", "execfile() is not available in Python 3",
   "Use exec(open(file).read()) instead", "error", "builtins"⟩

def ruleReduce : CompatRule :=
  ⟨patReduce, "PY2-BUILTIN-003", "reduce() was moved to functools in Python 3",
   "Use 'from functools import reduce'", "warning", "builtins"⟩

def ruleApply : CompatRule :=
  ⟨patApply, "PY2-BUILTIN-004", "apply() is not available in Python 3",
   "Use func(*args, **kwargs) instead", "error", "builtins"⟩

def ruleFileBuiltin : CompatRule :=
  ⟨patFileBuiltin, "PY2-BUILTIN-005", "file() builtin is not available in Python 3",
   "Use open() instead", "error", "builtins"⟩

def ruleCmpFunc : CompatRule :=
  ⟨patCmpCompat, "PY2-BUILTIN-006", "cmp() is not available in Python 3",
   "Use (a > b) - (a < b) or functools.cmp_to_key", "error", "builtins"⟩

/-- `COMPAT_PATTERNS` (`py2to3_server.py` lines 1535-1787), in source order. -/
def COMPAT_PATTERNS : List (String × CompatRule) :=
  [("xrange", ruleXrange),
   ("iteritems", ruleIteritems),
   ("itervalues", ruleItervalues),
   ("iterkeys", ruleIterkeys),
   ("has_key", ruleHasKey),
   ("unicode_type", ruleUnicodeType),
   ("long_type", ruleLongType),
   ("basestring", ruleBasestring),
   ("unicode_literal", ruleUnicodeLit),
   ("old_ne", ruleOldNe),
   ("backticks", ruleBackticks),
   ("print_statement", rulePrintStmt),
   ("except_comma", ruleExceptComma),
   ("old_raise", ruleOldRaise),
   ("exec_statement", ruleExecStmt),
   ("ConfigParser", ruleConfigMod),
   ("StringIO", ruleStringio),
   ("cStringIO", ruleCstringio),
   ("cPickle", ruleCpickle),
   ("Queue", ruleQueueMod),
   ("urllib2", ruleUrllib2),
   ("urlparse", ruleUrlparse),
   ("httplib", ruleHttplib),
   ("HTMLParser", ruleHtmlMod),
   ("raw_input", ruleRawInput),
   ("execfile", ruleExecfile),
   ("reduce", ruleReduce),
   ("apply", ruleApply),
   ("file_builtin", ruleFileBuiltin),
   ("cmp_func", ruleCmpFunc)]

/-- One entry of the `runtime_patterns` table inside the
`validate_conversion` handler (lines 1263-1319). -/
structure RtRule where
  pattern : RE
  issue : String
  reason : String
  severity : String

/-- `\bexec\s*\(` -/
def rtExec : RtRule :=
  ⟨seqP [RE.wb, patStr "exec", wsStar, patChr '('], "exec() usage",
   "Dynamic code execution may have different behavior in Python 3", "high"⟩

/-- `\beval\s*\(` -/
def rtEval : RtRule :=
  ⟨seqP [RE.wb, patStr "eval", wsStar, patChr '('], "eval() usage",
   "Dynamic evaluation may behave differently with string/bytes", "medium"⟩

/-- `(?<![/\d])/(?![/\d*])` -/
def rtDivision : RtRule :=
  ⟨seqP [lb1 (fun c => c == '/' || c.isDigit), patChr '/',
     RE.nla (RE.cls (fun c => c == '/' || c.isDigit || c == '*'))],
   "Division operator",
   "Division returns float in Python 3 (was int in Python 2)", "high"⟩

/-- `\bopen\s*\([^)]+\)` -/
def rtOpen : RtRule :=
  ⟨seqP [RE.wb, patStr "open", wsStar, patChr '(',
     patPlus (RE.cls (fun c => !(c == ')'))), patChr ')'],
   "File operations",
   "Default encoding changed; may need explicit encoding parameter", "medium"⟩

/-- `\.encode\s*\(|\.decode\s*\(` -/
def rtEncode : RtRule :=
  ⟨RE.alt (seqP [patChr '.', patStr "encode", wsStar, patChr '('])
     (seqP [patChr '.', patStr "decode", wsStar, patChr '(']),
   "String encoding/decoding",
   "str/bytes handling changed significantly", "medium"⟩

/-- `\bpickle\b` -/
def rtPickle : RtRule :=
  ⟨seqP [RE.wb, patStr "pickle", RE.wb], "Pickle usage",
   "Pickle protocol differences between Python 2/3", "medium"⟩

/-- `\bsocket\b` -/
def rtSocket : RtRule :=
  ⟨seqP [RE.wb, patStr "socket", RE.wb], "Socket operations",
   "Socket data is bytes in Python 3", "medium"⟩

/-- `\bsubprocess\b` -/
def rtSubprocess : RtRule :=
  ⟨seqP [RE.wb, patStr "subprocess", RE.wb], "Subprocess calls",
   "Output is bytes by default in Python 3", "low"⟩

/-- `sys\.std(in|out|err)` -/
def rtStdStreams : RtRule :=
  ⟨seqP [patStr "sys.std", RE.alt (patStr "in") (RE.alt (patStr "out") (patStr "err"))],
   "Standard streams",
   "Standard streams handle text differently in Python 3", "low"⟩

/-- `__metaclass__` -/
def rtMetaclass : RtRule :=
  ⟨patStr "__metaclass__", "Old metaclass syntax",
   "Use class Foo(metaclass=Meta) in Python 3", "high"⟩

/-- `\.sort\s*\([^)]*cmp\s*=` -/
def rtSortCmp : RtRule :=
  ⟨seqP [patChr '.', patStr "sort", wsStar, patChr '(',
     RE.star (RE.cls (fun c => !(c == ')'))), patStr "cmp", wsStar, patChr '='],
   "sort() with cmp parameter",
   "cmp parameter removed; use key with functools.cmp_to_key", "high"⟩

/-- The `runtime_patterns` table, in source order. -/
def runtime_patterns : List RtRule :=
  [rtExec, rtEval, rtDivision, rtOpen, rtEncode, rtPickle, rtSocket,
   rtSubprocess, rtStdStreams, rtMetaclass, rtSortCmp]

example : reSearch patXrange "for i in xrange(3):".data = true := by decide

example : reSearch patXrange "for i in range(3):".data = false := by decide

example : reSearch patOldOctal "x = 0755".data = true := by decide

example : reSearch patPrintStmt "print \"hi\"".data = true := by decide

example : reSearch patPrintStmt "print(\"hi\")".data = false := by decide

example : reSearch rtDivision.pattern "y = x / 2".data = true := by decide

example : reSearch rtDivision.pattern "import os".data = false := by decide

/-! ## Shared scanning helpers

All four scanning handlers (`analyze_py2_code`, `analyze_directory`,
`migration_report`, `validate_conversion`, `scan_compat`) use the same
header-exemption test, and the directory tools share the Python-dict
counting idiom `d[k] = d.get(k, 0) + n` which we model as an
insertion-ordered association list. -/

/-- `if i <= 2 and (line.startswith('#!') or 'coding' in line)` -/
def headerLine (i : Nat) (line : String) : Bool :=
  decide (i ≤ 2) && (pyStartsWith line "#!" || strContains line "coding")

/-- `LIMITS["max_file_size_bytes"]` (10 MiB). -/
def MAX_FILE_SIZE : Nat := 10485760

/-- `LIMITS["max_files_per_operation"]`. -/
def MAX_FILES : Nat := 1000

/-- `LIMITS["max_code_length"]`. -/
def MAX_CODE_LEN : Nat := 1000000

/-- `d.get(k, 0)` on a dict modelled as an insertion-ordered assoc list. -/
def getCount (c : List (String × Nat)) (k : String) : Nat := (c.lookup k).getD 0

/-- `d[k] = d.get(k, 0) + 1`, preserving dict insertion order. -/
def incr (k : String) : List (String × Nat) → List (String × Nat)
  | [] => [(k, 1)]
  | (k2, n) :: rest => if k == k2 then (k2, n + 1) :: rest else (k2, n) :: incr k rest

/-- `d[k] = d.get(k, 0) + m`, preserving dict insertion order. -/
def incrBy (k : String) (m : Nat) : List (String × Nat) → List (String × Nat)
  | [] => [(k, m)]
  | (k2, n) :: rest => if k == k2 then (k2, n + m) :: rest else (k2, n) :: incrBy k m rest

/-- `sum(d.values())`. -/
def sumCounts (c : List (String × Nat)) : Nat := (c.map Prod.snd).sum

/-- The per-pattern issue-count dict one file scan builds
(`migration_report` lines 1108-1116, `conversion_report` lines 1412-1427):
iterate `enumerate(lines, 1)`, skip header lines, and count every
`PY2_PATTERNS` rule matching each remaining line. -/
def countsPy2 (lines : List String) : List (String × Nat) :=
  (enum1 lines).foldl (fun acc il =>
    if headerLine il.1 il.2 then acc
    else PY2_PATTERNS.foldl
      (fun a p => if reSearch p.2 il.2.data then incr p.1 a else a) acc) []

/-- The flat issue count of one file (`analyze_directory` lines 868-876). -/
def countPy2Issues (lines : List String) : Nat :=
  (enum1 lines).foldl (fun n il =>
    if headerLine il.1 il.2 then n
    else n + PY2_PATTERNS.countP (fun p => reSearch p.2 il.2.data)) 0

/-- Is any `PY2_PATTERNS` rule matched somewhere in the line?  (The
description-oriented view of "this line is flagged".) -/
def py2Flagged (line : String) : Bool :=
  PY2_PATTERNS.any (fun p => reSearch p.2 line.data)

/-- Is any `COMPAT_PATTERNS` rule matched somewhere in the line?  (The
structured view of "this line is flagged".) -/
def compatFlagged (line : String) : Bool :=
  COMPAT_PATTERNS.any (fun p => reSearch p.2.pattern line.data)

/-- The category table shared by `analyze_py2_code` (lines 560-568) and
`migration_report` (lines 1070-1078). -/
def categoriesTable : List (String × List String) :=
  [("Print/IO", ["print_statement", "raw_input", "execfile"]),
   ("String/Unicode",
    ["unicode_literal", "unicode_type", "basestring", "backticks", "old_repr"]),
   ("Numbers", ["long_suffix", "old_octal"]),
   ("Builtins",
    ["xrange", "reduce", "apply", "cmp_func", "coerce", "intern",
     "file_builtin", "buffer_builtin"]),
   ("Dict methods",
    ["iteritems", "iterkeys", "itervalues", "has_key", "viewitems",
     "viewkeys", "viewvalues"]),
   ("Syntax", ["old_ne", "except_comma", "old_raise"]),
   ("Imports",
    ["configparser", "queue_module", "urllib2", "urlparse", "stringio",
     "cstringio", "cpickle", "tkinter", "http_cookiejar", "thread_module",
     "commands_module", "htmlparser", "httplib"])]

/-- First category containing the pattern (the `break` in the category
loop of `migration_report`, lines 1128-1132). -/
def catOf (p : String) : Option String :=
  (categoriesTable.find? (fun cp => cp.2.contains p)).map Prod.fst

/-- Fold one file's per-pattern counts into `category_totals`. -/
def addCats (ct : List (String × Nat)) (fi : List (String × Nat)) :
    List (String × Nat) :=
  fi.foldl (fun acc pc =>
    match catOf pc.1 with
    | some cat => incrBy cat pc.2 acc
    | none => acc) ct

/-! ## File/Directory Aggregator (`analyze_directory`, lines 817-921)

A directory walk is modelled as the ordered list of candidate files it
visits; each file carries the observable outcomes of the `os` calls the
handler makes on it. -/

/-- One file of a directory walk, with the outcomes of `os.path.getsize`
(`statOk`, `size`) and `open`/`read` (`readOk`, `content`; `errMsg` is
`str(e)` when reading raises). -/
structure DirEntry where
  fullPath : String
  relPath : String
  name : String
  statOk : Bool
  size : Nat
  readOk : Bool
  errMsg : String
  content : String

/-- One entry of the `results` list: an issue count or a status string. -/
inductive FileOutcome : Type where
  | count (n : Nat)
  | status (s : String)
deriving DecidableEq

/-- Accumulator of the `analyze_directory` per-file loop. -/
structure ADState where
  results : List (String × FileOutcome)
  total_issues : Nat
  files_with_issues : Nat
  files_scanned : Nat
  skipped_files : List String
deriving DecidableEq

/-- One iteration of the `analyze_directory` per-file loop
(lines 845-886): skip non-`.py` names; once `files_scanned` reaches the
operation limit, record the path in `skipped_files`; a failing or
over-limit size probe records `"Skipped: file too large"`; a read failure
records an error entry; otherwise count issues, record the file when the
count is positive, and always bump `files_scanned`. -/
def adStep (st : ADState) (e : DirEntry) : ADState :=
  if !(pyEndsWith e.name ".py") then st
  else if MAX_FILES ≤ st.files_scanned then
    { st with skipped_files := st.skipped_files ++ [e.fullPath] }
  else if !e.statOk || decide (MAX_FILE_SIZE < e.size) then
    { st with results :=
        st.results ++ [(e.relPath, FileOutcome.status "Skipped: file too large")] }
  else if !e.readOk then
    { st with results :=
        st.results ++ [(e.relPath, FileOutcome.status ("Error: " ++ e.errMsg))] }
  else
    let fi := countPy2Issues (splitNl e.content)
    if 0 < fi then
      { st with
        results := st.results ++ [(e.relPath, FileOutcome.count fi)],
        total_issues := st.total_issues + fi,
        files_with_issues := st.files_with_issues + 1,
        files_scanned := st.files_scanned + 1 }
    else { st with files_scanned := st.files_scanned + 1 }

/-- The whole `analyze_directory` scanning loop. -/
def analyzeDirectoryCore (entries : List DirEntry) : ADState :=
  entries.foldl adStep ⟨[], 0, 0, 0, []⟩

/-! ## `migration_report` scanning loop (lines 1064-1137)

Same walk, but an oversized (or unprobeable) file is skipped with a bare
`continue` — nothing is recorded for it — and per-file pattern dicts are
kept. -/

/-- One element of `file_data`. -/
structure FData where
  path : String
  issues : List (String × Nat)
  total : Nat
  lineCount : Nat
deriving DecidableEq

/-- Accumulator of the `migration_report` per-file loop. -/
structure MRState where
  file_data : List FData
  total_issues : Nat
  category_totals : List (String × Nat)
  files_scanned : Nat
  skipped_files : List String
deriving DecidableEq

/-- One iteration of the `migration_report` per-file loop (lines
1085-1137).  Note the two silent `continue`s: an oversized file and a file
whose size probe raises `OSError` leave the state unchanged. -/
def mrStep (st : MRState) (e : DirEntry) : MRState :=
  if !(pyEndsWith e.name ".py") then st
  else if MAX_FILES ≤ st.files_scanned then
    { st with skipped_files := st.skipped_files ++ [e.fullPath] }
  else if !e.statOk || decide (MAX_FILE_SIZE < e.size) then st
  else if !e.readOk then st
  else
    let lines := splitNl e.content
    let fi := countsPy2 lines
    let st2 :=
      if fi.isEmpty then st
      else
        { st with
          file_data := st.file_data ++ [⟨e.relPath, fi, sumCounts fi, lines.length⟩],
          total_issues := st.total_issues + sumCounts fi,
          category_totals := addCats st.category_totals fi }
    { st2 with files_scanned := st2.files_scanned + 1 }

/-- The whole `migration_report` scanning loop; the report (summary,
`priority_files`, `recommended_order`) is rendered from these fields. -/
def migrationReportCore (entries : List DirEntry) : MRState :=
  entries.foldl mrStep ⟨[], 0, [], 0, []⟩

/-! ## `scan_compat` (lines 1520-1882) -/

/-- One file argument of `scan_compat`, with the outcomes of
`os.path.isfile`, `os.path.getsize` and `open`/`readlines`. -/
structure CFile where
  path : String
  isFile : Bool
  statOk : Bool
  size : Nat
  readOk : Bool
  errMsg : String
  content : String

/-- One issue dict of `scan_compat` output.  The scan-error entries
(`SCAN-ERR-*`) carry no `suggested_fix`/`source` key, hence the `Option`
fields. -/
structure CIssue where
  file : String
  line : Nat
  code : String
  message : String
  suggested_fix : Option String
  severity : String
  category : String
  source : Option String
deriving DecidableEq

/-- The issues one line contributes (lines 1829-1852): header-exempt lines
contribute nothing; otherwise every matching `COMPAT_PATTERNS` rule
contributes one classified issue. -/
def compatLineIssues (path : String) (i : Nat) (line : String) : List CIssue :=
  if headerLine i line then []
  else COMPAT_PATTERNS.filterMap (fun pr =>
    if reSearch pr.2.pattern line.data then
      some ⟨path, i, pr.2.code, pr.2.message, some pr.2.suggested_fix,
        pr.2.severity, pr.2.category, some (pyStrip line)⟩
    else none)

/-- All issues of one file, lines enumerated from 1 as by `readlines`. -/
def compatFileIssues (path : String) (lines : List String) : List CIssue :=
  (enum1 lines).flatMap (fun il => compatLineIssues path il.1 il.2)

/-- Accumulator of the `scan_compat` per-file loop. -/
structure CState where
  all_issues : List CIssue
  files_scanned : Nat
  files_with_issues : Nat
  category_counts : List (String × Nat)
  severity_counts : List (String × Nat)

/-- Initial `scan_compat` state (`severity_counts` pre-seeded, line 1793). -/
def csInit : CState := ⟨[], 0, 0, [], [("error", 0), ("warning", 0), ("info", 0)]⟩

/-- One iteration of the `scan_compat` per-file loop (lines 1795-1865):
a missing file appends `SCAN-ERR-001`; a failing size probe is skipped
silently; an oversized file appends `SCAN-ERR-002`; a read failure appends
`SCAN-ERR-003`; otherwise the file is scanned, its issues appended and the
category/severity tallies updated — none of the scan-error entries touch
the tallies. -/
def csStep (st : CState) (f : CFile) : CState :=
  if !f.isFile then
    { st with all_issues := st.all_issues ++
        [⟨f.path, 0, "SCAN-ERR-001", "File not found: " ++ f.path, none,
          "error", "scan-error", none⟩] }
  else if !f.statOk then st
  else if MAX_FILE_SIZE < f.size then
    { st with all_issues := st.all_issues ++
        [⟨f.path, 0, "SCAN-ERR-002", "File exceeds size limit (10485760 bytes)",
          none, "warning", "scan-error", none⟩] }
  else if !f.readOk then
    { st with all_issues := st.all_issues ++
        [⟨f.path, 0, "SCAN-ERR-003", "Error reading file: " ++ f.errMsg, none,
          "error", "scan-error", none⟩] }
  else
    let fIssues := compatFileIssues f.path (readLines f.content)
    { all_issues := st.all_issues ++ fIssues,
      files_scanned := st.files_scanned + 1,
      files_with_issues := st.files_with_issues + (if fIssues.isEmpty then 0 else 1),
      category_counts := fIssues.foldl (fun cc is => incr is.category cc) st.category_counts,
      severity_counts := fIssues.foldl (fun sc is => incr is.severity sc) st.severity_counts }

/-- The whole `scan_compat` scanning loop.  The summary reported is
`total_issues = len(all_issues)` plus the other four fields. -/
def scanCompatCore (files : List CFile) : CState := files.foldl csStep csInit

/-! ## Conversion & Validation Engine (`validate_conversion`, lines
1208-1382)

`ast.parse` is an external capability; its verdict enters the model as the
boolean `synValid`. -/

/-- One entry of `remaining_py2_patterns` (lines 1246-1257). -/
structure RemIssue where
  line : Nat
  pattern : String
  text : String
deriving DecidableEq

/-- `remaining_patterns`: every `PY2_PATTERNS` rule matching every
non-header line. -/
def remainingPy2 (lines : List String) : List RemIssue :=
  (enum1 lines).flatMap (fun il =>
    if headerLine il.1 il.2 then []
    else PY2_PATTERNS.filterMap (fun p =>
      if reSearch p.2 il.2.data then some ⟨il.1, p.1, pyStrip il.2⟩ else none))

/-- One entry of `needs_human_review` (lines 1321-1330). -/
structure ReviewItem where
  line : Nat
  issue : String
  reason : String
  severity : String
  text : String
deriving DecidableEq

/-- `needs_human_review`: every runtime-risk rule matching every line
(note: no header exemption in this loop). -/
def needsHumanReview (lines : List String) : List ReviewItem :=
  (enum1 lines).flatMap (fun il =>
    runtime_patterns.filterMap (fun rp =>
      if reSearch rp.pattern il.2.data then
        some ⟨il.1, rp.issue, rp.reason, rp.severity, pyStrip il.2⟩
      else none))

/-- The terminal-status decision of `validate_conversion` (lines
1332-1340). -/
def vStatus (synValid : Bool) (rem : List RemIssue) (rev : List ReviewItem) : String :=
  if !synValid then "failed"
  else if !rem.isEmpty then "incomplete"
  else if !rev.isEmpty then "needs_review"
  else "success"

/-- `validation_status` for a converted file with the given lines, given
the `ast.parse` verdict. -/
def validateConversionStatus (synValid : Bool) (lines : List String) : String :=
  vStatus synValid (remainingPy2 lines) (needsHumanReview lines)

/-! ## Before/After Reconciler (`conversion_report`, lines 1384-1518) -/

/-- `fixed_issues` (lines 1429-1434): for each rule of the original scan,
keep `count - remaining` when positive. -/
def fixedIssues (orig rem : List (String × Nat)) : List (String × Nat) :=
  orig.filterMap (fun pc =>
    if getCount rem pc.1 < pc.2 then some (pc.1, pc.2 - getCount rem pc.1) else none)

/-- The `fix_rate` field (line 1494): a percentage when the original scan
found anything, `"N/A"` (here `none`) otherwise. -/
def fixRate (total_fixed total_original : Nat) : Option Rat :=
  if 0 < total_original then
    some ((total_fixed : Rat) / (total_original : Rat) * 100)
  else none

/-! ## Response envelope (`create_response`, lines 36-71)

`json.dumps` output is modelled as a small JSON value; the clock
(`time.strftime(..., time.gmtime())`) enters as the `ts` parameter. -/

/-- A JSON document. -/
inductive Json : Type where
  | str (s : String)
  | num (n : Int)
  | boolean (b : Bool)
  | null
  | arr (xs : List Json)
  | obj (fields : List (String × Json))

/-- `create_response`: the fixed envelope `{tool, status, timestamp}` plus
the optional `data`, `error` and `metadata` fields, in source order. -/
def create_response (tool status ts : String)
    (data err metadata : Option Json) : Json :=
  Json.obj
    ([("tool", Json.str tool), ("status", Json.str status),
      ("timestamp", Json.str ts)]
     ++ (match data with | some d => [("data", d)] | none => [])
     ++ (match err with | some e => [("error", e)] | none => [])
     ++ (match metadata with | some m => [("metadata", m)] | none => []))

/-- What one tool call returns: either a `create_response` JSON document
or a plain text message. -/
inductive ToolText : Type where
  | json (j : Json)
  | plain (s : String)

/-- Does the reply carry the fixed envelope
`{tool, status: "success"|"error", timestamp, ...}`? -/
def ToolText.isEnvelope : ToolText → Bool
  | ToolText.json (Json.obj (("tool", Json.str _) :: ("status", Json.str st) ::
      ("timestamp", Json.str _) :: _)) => st == "success" || st == "error"
  | _ => false

/-- The `LIMITS` dict (lines 26-31) as reported in `metadata`. -/
def limitsJson : Json :=
  Json.obj [("max_file_size_bytes", Json.num 10485760),
    ("max_files_per_operation", Json.num 1000),
    ("max_code_length", Json.num 1000000),
    ("timeout_seconds", Json.num 300)]

/-- Digit grouping used by Python `f"{n:,}"`. -/
def chunk3 : List Char → List (List Char)
  | [] => []
  | a :: b :: c :: rest => [a, b, c] :: chunk3 rest
  | l => [l]

/-- Python `f"{n:,}"`. -/
def commaFmt (n : Nat) : String :=
  String.mk ((List.intercalate [','] (chunk3 (toString n).data.reverse)).reverse)

/-! ## `analyze_py2_code` (lines 456-590) -/

/-- The `issue_descriptions` table (lines 477-532). -/
def issueDescs : List (String × String) :=
  [("print_statement", "Print statement (use print() function)"),
   ("raw_input", "raw_input() (use input() in Python 3)"),
   ("execfile", "execfile() (use exec(open().read()))"),
   ("unicode_literal", "Unicode literal u'' (not needed in Python 3)"),
   ("unicode_type", "unicode() (use str in Python 3)"),
   ("basestring", "basestring (use str in Python 3)"),
   ("backticks", "Backticks `x` for repr (use repr(x))"),
   ("long_suffix", "Long integer suffix L (not needed in Python 3)"),
   ("old_octal", "Old octal literal 0755 (use 0o755)"),
   ("xrange", "xrange() (use range() in Python 3)"),
   ("reduce", "reduce() (import from functools)"),
   ("apply", "apply() (use func(*args, **kwargs))"),
   ("cmp_func", "cmp() or cmp= (removed in Python 3)"),
   ("coerce", "coerce() (removed in Python 3)"),
   ("intern", "intern() (use sys.intern())"),
   ("file_builtin", "file() builtin (use open())"),
   ("buffer_builtin", "buffer() (use memoryview())"),
   ("iteritems", ".iteritems() (use .items() in Python 3)"),
   ("iterkeys", ".iterkeys() (use .keys() in Python 3)"),
   ("itervalues", ".itervalues() (use .values() in Python 3)"),
   ("has_key", ".has_key() (use 'in' operator)"),
   ("viewitems", ".viewitems() (use .items() in Python 3)"),
   ("viewkeys", ".viewkeys() (use .keys() in Python 3)"),
   ("viewvalues", ".viewvalues() (use .values() in Python 3)"),
   ("old_ne", "<> operator (use !=)"),
   ("except_comma", "Old except syntax (use 'as' keyword)"),
   ("old_raise", "Old raise syntax (use raise E('msg'))"),
   ("old_repr", "Backticks for repr (use repr())"),
   ("configparser", "ConfigParser (use configparser)"),
   ("queue_module", "Queue (use queue)"),
   ("urllib2", "urllib2 (use urllib.request)"),
   ("urlparse", "urlparse (use urllib.parse)"),
   ("stringio", "StringIO (use io.StringIO)"),
   ("cstringio", "cStringIO (use io.StringIO)"),
   ("cpickle", "cPickle (use pickle)"),
   ("tkinter", "Tkinter (use tkinter)"),
   ("http_cookiejar", "cookielib (use http.cookiejar)"),
   ("thread_module", "thread (use _thread or threading)"),
   ("commands_module", "commands (use subprocess)"),
   ("htmlparser", "HTMLParser (use html.parser)"),
   ("httplib", "httplib (use http.client)")]

/-- `issue_descriptions.get(pattern_name, pattern_name)`. -/
def descOf (n : String) : String := (issueDescs.lookup n).getD n

/-- Accumulator of the `analyze_py2_code` scan: the flat human-readable
issue list plus the per-pattern counts. -/
structure APCState where
  issues : List String
  counts : List (String × Nat)

/-- One line of the `analyze_py2_code` scan (lines 535-551): header lines
are exempt; every matching rule bumps its count and appends a description
line, the trimmed source line, and — when the external fissix capability
suggested a conversion for this line — the suggestion. -/
def apcLine (conv : Nat → Option String) (st : APCState) (i : Nat)
    (line : String) : APCState :=
  if headerLine i line then st
  else PY2_PATTERNS.foldl (fun s p =>
    if reSearch p.2 line.data then
      { counts := incr p.1 s.counts,
        issues := s.issues ++
          ["Line " ++ toString i ++ ": " ++ descOf p.1, "  → " ++ pyStrip line] ++
          (match conv i with | some c => ["  ✓ " ++ pyStrip c] | none => []) }
    else s) st

/-- Stable descending insertion, as `sorted(..., key=lambda x: -x[1])`. -/
def insDesc (x : String × Nat) : List (String × Nat) → List (String × Nat)
  | [] => [x]
  | y :: ys => if y.2 ≤ x.2 then x :: y :: ys else y :: insDesc x ys

/-- `sorted(issue_counts.items(), key=lambda x: -x[1])`. -/
def sortCountDesc (l : List (String × Nat)) : List (String × Nat) :=
  l.foldr insDesc []

/-- The markdown summary of `analyze_py2_code` (lines 557-587). -/
def apcSummary (hasFx : Bool) (st : APCState) : String :=
  let total := st.issues.countP (fun x => pyStartsWith x "Line ")
  let catLines := categoriesTable.foldl (fun acc cp =>
    let cnt := (cp.2.map (getCount st.counts)).sum
    if 0 < cnt then acc ++ "- **" ++ cp.1 ++ "**: " ++ toString cnt ++ "\n"
    else acc) ""
  let breakdown := (sortCountDesc st.counts).foldl (fun acc pc =>
    acc ++ "- " ++ pc.1 ++ ": " ++ toString pc.2 ++ "\n") ""
  "## Analysis Summary\n\n**Total issues found: " ++ toString total ++ "**\n" ++
  (if hasFx then "*Analysis powered by fissix*\n\n"
   else "*Install fissix for enhanced analysis: pip install fissix*\n\n") ++
  "### By Category:\n" ++ catLines ++
  "\n### Detailed Breakdown:\n" ++ breakdown ++
  "\n---\n\n### Detailed Issues:\n\n"

/-- The `analyze_py2_code` handler: the length-limit failure replies with
the `create_response` envelope, but both success paths reply with plain
text (the fixed no-issue message, or the markdown report). -/
def analyzePy2Code (ts : String) (hasFx : Bool) (conv : Nat → Option String)
    (code : String) : ToolText :=
  if MAX_CODE_LEN < code.length then
    ToolText.json (create_response "analyze_py2_code" "error" ts none
      (some (Json.obj [("type", Json.str "CodeLengthLimitExceeded"),
        ("message", Json.str ("Code length (" ++ commaFmt code.length ++
          " chars) exceeds limit (" ++ commaFmt MAX_CODE_LEN ++ " chars)")),
        ("length", Json.num (code.length : Int)),
        ("limit", Json.num (MAX_CODE_LEN : Int))])) none)
  else
    let conv2 := if hasFx then conv else fun _ => none
    let st := (enum1 (splitNl code)).foldl
      (fun s il => apcLine conv2 s il.1 il.2) ⟨[], []⟩
    if st.issues.isEmpty then
      ToolText.plain "No Python 2 patterns detected. Code appears Python 3 compatible."
    else
      ToolText.plain (apcSummary hasFx st ++ String.intercalate "\n" st.issues)

/-- Render a dict of counts as JSON. -/
def countsJson (c : List (String × Nat)) : Json :=
  Json.obj (c.map (fun p => (p.1, Json.num (p.2 : Int))))

/-- Render one `scan_compat` issue dict as JSON (the optional keys are
present only for pattern issues). -/
def issueJson (i : CIssue) : Json :=
  Json.obj
    ([("file", Json.str i.file), ("line", Json.num (i.line : Int)),
      ("code", Json.str i.code), ("message", Json.str i.message)]
     ++ (match i.suggested_fix with
         | some f => [("suggested_fix", Json.str f)] | none => [])
     ++ [("severity", Json.str i.severity), ("category", Json.str i.category)]
     ++ (match i.source with | some s => [("source", Json.str s)] | none => []))

/-- The `data` field of a successful `scan_compat` reply (lines 1867-1881). -/
def scanCompatData (st : CState) : Json :=
  Json.obj [("issues", Json.arr (st.all_issues.map issueJson)),
    ("summary", Json.obj
      [("total_issues", Json.num (st.all_issues.length : Int)),
       ("files_scanned", Json.num (st.files_scanned : Int)),
       ("files_with_issues", Json.num (st.files_with_issues : Int)),
       ("by_severity", countsJson st.severity_counts),
       ("by_category", countsJson st.category_counts)])]

/-- The whole `scan_compat` handler: an empty file list replies with an
error envelope, anything else with a success envelope around the scan
data. -/
def scanCompatTool (ts : String) (files : List CFile) : ToolText :=
  if files.isEmpty then
    ToolText.json (create_response "scan_compat" "error" ts none
      (some (Json.obj [("type", Json.str "NoFilesProvided"),
        ("message", Json.str "No files provided for scanning")])) none)
  else
    ToolText.json (create_response "scan_compat" "success" ts
      (some (scanCompatData (scanCompatCore files))) none
      (some (Json.obj [("limits", limitsJson)])))

/-! ## File-write traces and crash states

`convert_file` (lines 1017-1031) persists the backup and then overwrites
the target with two plain `open(path, 'w')` writes; `write_files` of
`filesystem_server.py` (lines 322-334) writes a `NamedTemporaryFile` and
then `os.replace`s it over the target.  A write trace is a list of these
three effects; a crash may stop the trace between steps, or inside a plain
write leaving an arbitrary prefix of the new content — `os.replace` is
atomic and has no partial state. -/

/-- The file system: path to content. -/
def FS : Type := String → Option String

/-- One write effect: a plain in-place write (`open(p, 'w').write(c)`),
a temporary-file write, or an atomic `os.replace`. -/
inductive WStep : Type where
  | wfile (path content : String)
  | wtemp (path content : String)
  | rep (src dst : String)

/-- The effect of one completed step. -/
def applyW (fs : FS) : WStep → FS
  | WStep.wfile p c => fun q => if q = p then some c else fs q
  | WStep.wtemp p c => fun q => if q = p then some c else fs q
  | WStep.rep s d => fun q => if q = d then fs s else if q = s then none else fs q

/-- The observable states of a step interrupted mid-write: a plain or
temporary write may have flushed any prefix of the new content.  Atomic
`os.replace` has no mid-write state. -/
inductive PartW : FS → WStep → FS → Prop
  | wfilePart (fs : FS) (p c pre rest : String) (h : pre ++ rest = c) :
      PartW fs (WStep.wfile p c) (fun q => if q = p then some pre else fs q)
  | wtempPart (fs : FS) (p c pre rest : String) (h : pre ++ rest = c) :
      PartW fs (WStep.wtemp p c) (fun q => if q = p then some pre else fs q)

/-- `Crash fs steps out`: `out` is a file-system state observable if the
process crashes at any point while executing `steps` from `fs` (including
before the first and after the last step). -/
inductive Crash : FS → List WStep → FS → Prop
  | here (fs : FS) (steps : List WStep) : Crash fs steps fs
  | mid (fs : FS) (st : WStep) (rest : List WStep) (out : FS) :
      PartW fs st out → Crash fs (st :: rest) out
  | next (fs : FS) (st : WStep) (rest : List WStep) (out : FS) :
      Crash (applyW fs st) rest out → Crash fs (st :: rest) out

/-- The write trace of a destructive `convert_file` call (lines
1017-1026): optionally the plain backup write, then a plain in-place write
of the converted content over the target. -/
def convertFileWrites (file_path original converted : String) (backup : Bool) :
    List WStep :=
  (if backup then [WStep.wfile (file_path ++ ".py2.bak") original] else []) ++
  [WStep.wfile file_path converted]

/-- The write trace of one file of a `write_files` call
(`filesystem_server.py` lines 322-334): temporary write, then atomic
replace. -/
def writeFilesWrites (tmp path content : String) : List WStep :=
  [WStep.wtemp tmp content, WStep.rep tmp path]

/-! ## Concrete fixtures used by witnesses and counterexamples -/

/-- A file passing every guard of `analyze_directory`. -/
def adOk (e : DirEntry) : Bool :=
  pyEndsWith e.name ".py" && e.statOk && !(decide (MAX_FILE_SIZE < e.size)) && e.readOk

/-- A small scannable `.py` file with one legacy pattern. -/
def dirDemo1 : DirEntry :=
  ⟨"/p/a.py", "a.py", "a.py", true, 100, true, "", "xrange(1)\n"⟩

/-- A small clean `.py` file. -/
def dirDemo2 : DirEntry :=
  ⟨"/p/b.py", "b.py", "b.py", true, 50, true, "", "x = 1\n"⟩

/-- A `.py` file over the 10 MiB size limit. -/
def dirDemoBig : DirEntry :=
  ⟨"/p/big.py", "big.py", "big.py", true, 20000000, true, "", ""⟩

/-- A `scan_compat` argument naming a file that does not exist. -/
def cfMissing : CFile := ⟨"missing.py", false, true, 0, true, "", ""⟩

/-- Initial file system for the `convert_file` crash scenario: the target
holds `"a"`. -/
def c7fs0 : FS := fun q => if q = "f.py" then some "a" else none

/-- The half-written state: the in-place rewrite of `"f.py"` to `"bc"`
crashed after flushing only `"b"`. -/
def c7half : FS := fun q => if q = "f.py" then some "b" else c7fs0 q

/-- Empty file system for the `write_files` witness. -/
def c7wfs0 : FS := fun _ => none

/-- The state after the `write_files` trace for `"p"` runs to completion. -/
def c7final : FS := applyW (applyW c7wfs0 (WStep.wtemp "t" "c")) (WStep.rep "t" "p")

/-! ## Regex monotonicity

`COMPAT_PATTERNS` and `PY2_PATTERNS` share most regexes verbatim; the two
that differ (`cmp_func`, `StringIO`) differ only by widening a character
class or dropping a trailing negative lookahead.  `RSub r1 r2` captures
exactly these relations and implies inclusion of match sets. -/

/-- Syntactic sub-pattern relation: equal patterns, pointwise-wider
classes, congruence under concatenation, and dropping a trailing negative
lookahead. -/
inductive RSub : RE → RE → Prop
  | same (r : RE) : RSub r r
  | cls {p q : Char → Bool} (h : ∀ c, p c = true → q c = true) :
      RSub (RE.cls p) (RE.cls q)
  | cat {a b c d : RE} : RSub a c → RSub b d → RSub (RE.cat a b) (RE.cat c d)
  | dropNla (r a : RE) : RSub (RE.cat r (RE.nla a)) r

theorem rsub_ends {r1 r2 : RE} (h : RSub r1 r2) :
    ∀ (s : List Char) (fuel i x : Nat),
      x ∈ ends s fuel r1 i → x ∈ ends s fuel r2 i := by
  induction h with
  | same r => intro s fuel i x hx; exact hx
  | @cls p q hpq =>
    intro s fuel i x hx
    simp only [ends] at hx ⊢
    cases hc : s[i]? with
    | none => simp [hc] at hx
    | some c =>
      simp only [hc] at hx ⊢
      cases hpc : p c with
      | false => simp [hpc] at hx
      | true =>
        simp only [hpc, if_true, List.mem_singleton] at hx
        simp [hpq c hpc, hx]
  | cat h1 h2 ih1 ih2 =>
    intro s fuel i x hx
    simp only [ends, List.mem_flatMap] at hx ⊢
    obtain ⟨j, hj, hxj⟩ := hx
    exact ⟨j, ih1 s fuel i j hj, ih2 s fuel j x hxj⟩
  | dropNla r a =>
    intro s fuel i x hx
    simp only [ends, List.mem_flatMap] at hx
    obtain ⟨j, hj, hxj⟩ := hx
    cases he : (ends s fuel a j).isEmpty with
    | true => simp [ends, he] at hxj; exact hxj ▸ hj
    | false => simp [ends, he] at hxj

theorem rsub_search {r1 r2 : RE} (h : RSub r1 r2) (s : List Char)
    (hm : reSearch r1 s = true) : reSearch r2 s = true := by
  simp only [reSearch, List.any_eq_true, List.mem_range] at hm ⊢
  obtain ⟨i, hi, hne⟩ := hm
  refine ⟨i, hi, ?_⟩
  have h1 : ends s (s.length + 1) r1 i ≠ [] := by simpa using hne
  obtain ⟨x, hx⟩ := List.exists_mem_of_ne_nil _ h1
  have h2 := rsub_ends h s (s.length + 1) i x hx
  simpa using List.ne_nil_of_mem h2

/-- The `COMPAT_PATTERNS` `cmp` regex `\bcmp\s*\(` is subsumed by the
`PY2_PATTERNS` regex `\bcmp\s*[(\=]`. -/
theorem cmp_sub : RSub patCmpCompat patCmpPy2 := by
  unfold patCmpCompat patCmpPy2 seqP
  simp only [List.foldr]
  exact RSub.cat (RSub.same _) (RSub.cat (RSub.same _) (RSub.cat (RSub.same _)
    (RSub.cat (RSub.cls (fun c hc => by simp [hc])) (RSub.same _))))

/-- The `COMPAT_PATTERNS` `StringIO` regex `(?<!\w)StringIO\b(?!\.)` is
subsumed by the `PY2_PATTERNS` regex `(?<!\w)StringIO\b`. -/
theorem stringio_sub : RSub patStringioCompat patStringioPy2 :=
  RSub.dropNla patStringioPy2 (patChr '.')

/-- Claim C1 (counterexample): the line `x = 0755` is flagged by the
description-oriented view (`PY2_PATTERNS`, rule `old_octal`) but by no
rule of the structured view (`COMPAT_PATTERNS`), so the two views do not
flag the same lines. -/
theorem C1_counterexample :
    py2Flagged "x = 0755" = true ∧ compatFlagged "x = 0755" = false := by
  constructor <;> decide

/-- Claim C1 (amended): the inclusion that does hold.  Every line flagged
by a `COMPAT_PATTERNS` rule other than `exec_statement` is flagged by
`PY2_PATTERNS`: the shared rules use identical regexes, and the two rules
that differ (`cmp_func`, `StringIO`) use strictly narrower regexes than
their `PY2_PATTERNS` counterparts.  (The converse fails, and
`exec_statement` has no `PY2_PATTERNS` counterpart.) -/
theorem C1_compat_flag_implies_py2 (line : String) (pr : String × CompatRule)
    (hmem : pr ∈ COMPAT_PATTERNS) (hne : pr.1 ≠ "exec_statement")
    (hmatch : reSearch pr.2.pattern line.data = true) :
    py2Flagged line = true := by
  simp only [COMPAT_PATTERNS, List.mem_cons, List.not_mem_nil, or_false] at hmem
  rcases hmem with h|h|h|h|h|h|h|h|h|h|h|h|h|h|h|h|h|h|h|h|h|h|h|h|h|h|h|h|h|h
  all_goals subst h
  all_goals simp only [ruleXrange, ruleIteritems, ruleItervalues, ruleIterkeys,
    ruleHasKey, ruleUnicodeType, ruleLongType, ruleBasestring, ruleUnicodeLit,
    ruleOldNe, ruleBackticks, rulePrintStmt, ruleExceptComma, ruleOldRaise,
    ruleExecStmt, ruleConfigMod, ruleStringio, ruleCstringio, ruleCpickle,
    ruleQueueMod, ruleUrllib2, ruleUrlparse, ruleHttplib, ruleHtmlMod,
    ruleRawInput, ruleExecfile, ruleReduce, ruleApply, ruleFileBuiltin,
    ruleCmpFunc] at hmatch hne ⊢
  all_goals solve
    | exact absurd rfl hne
    | simp [py2Flagged, PY2_PATTERNS, hmatch]
    | (have h2 := rsub_search cmp_sub line.data hmatch
       simp [py2Flagged, PY2_PATTERNS, h2])
    | (have h2 := rsub_search stringio_sub line.data hmatch
       simp [py2Flagged, PY2_PATTERNS, h2])

/-- Claim C1 (witness): the inclusion applied to a concrete line,
`d.iteritems()`, flagged by the structured `iteritems` rule. -/
theorem C1_witness : py2Flagged "d.iteritems()" = true :=
  C1_compat_flag_implies_py2 "d.iteritems()" ("iteritems", ruleIteritems)
    (by simp [COMPAT_PATTERNS]) (by decide) (by decide)

/-- Claim C2 (counterexample): on a syntactically valid converted file
with no remaining legacy pattern and no runtime-risk flag the engine
assigns the string `"success"`, not the `"clean"` terminal state the claim
prescribes. -/
theorem C2_counterexample :
    validateConversionStatus true ["x = 1"] = "success" ∧
    validateConversionStatus true ["x = 1"] ≠ "clean" := by
  constructor <;> decide

/-- Claim C2 (amended): the terminal-state assignment of
`validate_conversion`, with the all-clear state named `"success"` (the
code's name for the spec's `clean`): invalid syntax yields `"failed"`;
valid syntax with remaining legacy patterns yields `"incomplete"`; valid
syntax, no legacy patterns, but runtime-risk flags yields
`"needs_review"`; otherwise `"success"`. -/
theorem C2_status_machine (synValid : Bool) (lines : List String) :
    (synValid = false → validateConversionStatus synValid lines = "failed") ∧
    (synValid = true → remainingPy2 lines ≠ [] →
      validateConversionStatus synValid lines = "incomplete") ∧
    (synValid = true → remainingPy2 lines = [] → needsHumanReview lines ≠ [] →
      validateConversionStatus synValid lines = "needs_review") ∧
    (synValid = true → remainingPy2 lines = [] → needsHumanReview lines = [] →
      validateConversionStatus synValid lines = "success") := by
  refine ⟨fun h => by subst h; rfl, fun h hrem => ?_, fun h hrem hrev => ?_,
    fun h hrem hrev => ?_⟩
  · subst h
    unfold validateConversionStatus vStatus
    cases hr : remainingPy2 lines with
    | nil => exact absurd hr hrem
    | cons a l => simp [hr]
  · subst h
    unfold validateConversionStatus vStatus
    rw [hrem]
    cases hv : needsHumanReview lines with
    | nil => exact absurd hv hrev
    | cons a l => simp [hv]
  · subst h
    unfold validateConversionStatus vStatus
    rw [hrem, hrev]
    rfl

/-- Claim C2 (witness): the four terminal states reached on concrete
files (a syntax failure; a remaining `print` statement; a clean file with
an `encode` runtime risk; an entirely clean file). -/
theorem C2_witness :
    validateConversionStatus false ["x = 1"] = "failed" ∧
    validateConversionStatus true ["print \"x\""] = "incomplete" ∧
    validateConversionStatus true ["a.encode()"] = "needs_review" ∧
    validateConversionStatus true ["x = 1"] = "success" :=
  ⟨(C2_status_machine false ["x = 1"]).1 rfl,
   (C2_status_machine true ["print \"x\""]).2.1 rfl (by decide),
   (C2_status_machine true ["a.encode()"]).2.2.1 rfl (by decide) (by decide),
   (C2_status_machine true ["x = 1"]).2.2.2 rfl (by decide) (by decide)⟩

/-- Claim C4: the reconciler's fix rate is the fixed/original ratio (as a
percentage) whenever the original scan found anything, and the
not-applicable marker (rendered `"N/A"`) when it found nothing — the
division is guarded and never happens with a zero denominator. -/
theorem C4_fix_rate (tf tot : Nat) :
    (0 < tot → fixRate tf tot = some ((tf : Rat) / (tot : Rat) * 100)) ∧
    fixRate tf 0 = none := by
  constructor
  · intro h
    simp [fixRate, h]
  · simp [fixRate]

/-- Claim C4 (witness): the spec scenario — 10 original occurrences, all
fixed — reports a 100% fix rate, and a 0-issue original reports `N/A`. -/
theorem C4_witness : fixRate 10 10 = some 100 ∧ fixRate 7 0 = none := by
  constructor
  · rw [(C4_fix_rate 10 10).1 (by norm_num)]
    norm_num
  · exact (C4_fix_rate 7 0).2

/-- Claim C9: on the single input line `print "hi"` (no shebang or
encoding header), the structured scanner reports exactly one issue, with
rule code `PY2-SYN-001`, severity `error`, category `syntax`. -/
theorem C9_print_scan :
    compatFileIssues "test.py" ["print \"hi\""] =
      [⟨"test.py", 1, "PY2-SYN-001", "Print statement syntax is not valid in Python 3",
        some "Use print() function instead", "error", "syntax", some "print \"hi\""⟩] := by
  decide

/-- Claim C10: a line at position 1 or 2 that starts with `#!` or
contains the substring `coding` anywhere is exempt from scanning: it
contributes no issue to the structured scanner (`scan_compat`) and leaves
the `analyze_py2_code` accumulator untouched, whatever rules it would
otherwise match. -/
theorem C10_header_skip (path : String) (conv : Nat → Option String)
    (st : APCState) (i : Nat) (line : String) (h1 : i ≤ 2)
    (h2 : pyStartsWith line "#!" = true ∨ strContains line "coding" = true) :
    compatLineIssues path i line = [] ∧ apcLine conv st i line = st := by
  have hh : headerLine i line = true := by
    unfold headerLine
    rcases h2 with h | h <;> simp [h1, h]
  constructor
  · simp [compatLineIssues, hh]
  · simp [apcLine, hh]

/-- Claim C10 (witness): the line `print "encoding test"` at position 2
contains `coding`, so it is skipped by both scanners even though the
print-statement rule matches it. -/
theorem C10_witness :
    compatLineIssues "t.py" 2 "print \"encoding test\"" = [] ∧
    apcLine (fun _ => none) ⟨[], []⟩ 2 "print \"encoding test\"" = ⟨[], []⟩ ∧
    reSearch patPrintStmt "print \"encoding test\"".data = true := by
  have h := C10_header_skip "t.py" (fun _ => none) ⟨[], []⟩ 2
    "print \"encoding test\"" (by norm_num) (Or.inr (by decide))
  exact ⟨h.1, h.2, by decide⟩

/-- Claim C8 (counterexample): the success path of `analyze_py2_code` on
a clean input replies with a plain text message, not with the fixed JSON
envelope. -/
theorem C8_counterexample :
    analyzePy2Code "2024-01-01T00:00:00Z" false (fun _ => none) "x = 1" =
      ToolText.plain "No Python 2 patterns detected. Code appears Python 3 compatible." ∧
    (analyzePy2Code "2024-01-01T00:00:00Z" false (fun _ => none) "x = 1").isEnvelope
      = false := by
  constructor <;> rfl

/-- Claim C8 (amended): tools that build their reply via
`create_response` do return the fixed envelope.  `scan_compat` replies —
for every timestamp and argument list — with a JSON document whose first
three fields are `tool`, `status` (either `"success"` or `"error"`) and
`timestamp`; but not every tool call does (see the counterexample:
`analyze_py2_code`'s success paths return plain text). -/
theorem C8_envelope (ts : String) (files : List CFile) :
    (scanCompatTool ts files).isEnvelope = true := by
  cases files with
  | nil => rfl
  | cons f fs => rfl

/-! ## Counting lemmas for `scan_compat` -/

theorem sumCounts_incr (k : String) (c : List (String × Nat)) :
    sumCounts (incr k c) = sumCounts c + 1 := by
  induction c with
  | nil => simp [incr, sumCounts]
  | cons kc rest ih =>
    obtain ⟨k2, n⟩ := kc
    by_cases h : (k == k2) = true
    · simp [incr, h, sumCounts]
      omega
    · simp only [incr, h, if_false, Bool.false_eq_true] at ih ⊢
      simp [sumCounts] at ih ⊢
      omega

theorem foldl_incr_sum {α : Type} (g : α → String) (l : List α)
    (cc : List (String × Nat)) :
    sumCounts (l.foldl (fun c i => incr (g i) c) cc) = sumCounts cc + l.length := by
  induction l generalizing cc with
  | nil => simp
  | cons a t ih =>
    simp only [List.foldl_cons, List.length_cons]
    rw [ih, sumCounts_incr]
    omega

theorem compat_cat_not_scanerr :
    ∀ pr ∈ COMPAT_PATTERNS, (pr.2.category == "scan-error") = false := by decide

theorem lineIssues_cat (path : String) (i : Nat) (line : String) :
    ∀ x ∈ compatLineIssues path i line, (x.category == "scan-error") = false := by
  intro x hx
  unfold compatLineIssues at hx
  cases hhead : headerLine i line with
  | true => simp [hhead] at hx
  | false =>
    simp only [hhead, Bool.false_eq_true, if_false] at hx
    rw [List.mem_filterMap] at hx
    obtain ⟨pr, hpr, hsome⟩ := hx
    by_cases hm : reSearch pr.2.pattern line.data = true
    · rw [if_pos hm] at hsome
      cases hsome
      exact compat_cat_not_scanerr pr hpr
    · rw [if_neg hm] at hsome
      cases hsome

theorem fileIssues_cat (path : String) (lines : List String) :
    ∀ x ∈ compatFileIssues path lines, (x.category == "scan-error") = false := by
  intro x hx
  unfold compatFileIssues at hx
  rw [List.mem_flatMap] at hx
  obtain ⟨il, _, hx2⟩ := hx
  exact lineIssues_cat path il.1 il.2 x hx2

theorem csStep_inv (st : CState) (f : CFile)
    (h1 : st.all_issues.length =
      sumCounts st.category_counts +
        st.all_issues.countP (fun i => i.category == "scan-error"))
    (h2 : st.files_with_issues ≤ st.files_scanned) :
    (csStep st f).all_issues.length =
      sumCounts (csStep st f).category_counts +
        (csStep st f).all_issues.countP (fun i => i.category == "scan-error") ∧
    (csStep st f).files_with_issues ≤ (csStep st f).files_scanned := by
  unfold csStep
  split_ifs with c1 c2 c3 c4
  · constructor
    · simp [List.countP_append, List.countP_cons, h1]
      omega
    · simpa using h2
  · exact ⟨h1, h2⟩
  · constructor
    · simp [List.countP_append, List.countP_cons, h1]
      omega
    · simpa using h2
  · constructor
    · simp [List.countP_append, List.countP_cons, h1]
      omega
    · simpa using h2
  · have hz : (compatFileIssues f.path (readLines f.content)).countP
        (fun i => i.category == "scan-error") = 0 :=
      List.countP_eq_zero.mpr (fun a ha => by
        simp [fileIssues_cat f.path (readLines f.content) a ha])
    constructor
    · simp only [List.length_append, List.countP_append, hz,
        foldl_incr_sum (fun is : CIssue => is.category)]
      omega
    · simp only []
      split_ifs <;> omega

theorem cs_fold_inv (files : List CFile) : ∀ st : CState,
    (st.all_issues.length =
      sumCounts st.category_counts +
        st.all_issues.countP (fun i => i.category == "scan-error") ∧
     st.files_with_issues ≤ st.files_scanned) →
    ((files.foldl csStep st).all_issues.length =
      sumCounts (files.foldl csStep st).category_counts +
        (files.foldl csStep st).all_issues.countP
          (fun i => i.category == "scan-error") ∧
     (files.foldl csStep st).files_with_issues ≤
       (files.foldl csStep st).files_scanned) := by
  induction files with
  | nil => intro st h; exact h
  | cons f rest ih =>
    intro st h
    exact ih (csStep st f) (csStep_inv st f h.1 h.2)

/-- Claim C5 (amended): for every `scan_compat` run, the reported
`total_issues` (the length of the issue list) equals the sum of the
`by_category` counts plus the number of scan-error entries (missing,
oversized or unreadable files) — the scan-error entries are counted in
`total_issues` but in no category tally — and
`files_with_issues ≤ files_scanned` always holds. -/
theorem C5_total_vs_categories (files : List CFile) :
    (scanCompatCore files).all_issues.length =
      sumCounts (scanCompatCore files).category_counts +
        (scanCompatCore files).all_issues.countP
          (fun i => i.category == "scan-error") ∧
    (scanCompatCore files).files_with_issues ≤
      (scanCompatCore files).files_scanned :=
  cs_fold_inv files csInit ⟨rfl, Nat.le_refl 0⟩

/-- Claim C5 (counterexample): scanning one missing file yields
`total_issues = 1` (the `SCAN-ERR-001` entry) while the `by_category`
counts sum to 0, so `total_issues` is not the sum of the per-category
counts. -/
theorem C5_counterexample :
    (scanCompatCore [cfMissing]).all_issues.length = 1 ∧
    sumCounts (scanCompatCore [cfMissing]).category_counts = 0 ∧
    (scanCompatCore [cfMissing]).all_issues.length ≠
      sumCounts (scanCompatCore [cfMissing]).category_counts := by
  refine ⟨rfl, rfl, by decide⟩

/-! ## Step lemmas for the `analyze_directory` loop -/

theorem adStep_fs (st : ADState) (e : DirEntry)
    (hcap : st.files_scanned < MAX_FILES) :
    (adStep st e).files_scanned =
      st.files_scanned + (if adOk e = true then 1 else 0) := by
  unfold adStep adOk
  have hns : ¬(MAX_FILES ≤ st.files_scanned) := Nat.not_le.mpr hcap
  cases hpy : pyEndsWith e.name ".py" with
  | false => simp [hpy]
  | true =>
    cases hst : e.statOk with
    | false => simp [hpy, hst, hns]
    | true =>
      cases hsz : decide (MAX_FILE_SIZE < e.size) with
      | true => simp [hpy, hst, hsz, hns]
      | false =>
        cases hrd : e.readOk with
        | false => simp [hpy, hst, hsz, hrd, hns]
        | true =>
          by_cases hfi : 0 < countPy2Issues (splitNl e.content)
          · simp [hpy, hst, hsz, hrd, hns, hfi]
          · simp [hpy, hst, hsz, hrd, hns, hfi]

theorem adStep_results_mono (st : ADState) (e : DirEntry) :
    ∀ m ∈ st.results, m ∈ (adStep st e).results := by
  intro m hm
  unfold adStep
  split_ifs <;> try simp [List.mem_append, hm]
  split_ifs <;> simp [List.mem_append, hm]

theorem adStep_skiprec (st : ADState) (e : DirEntry)
    (hcap : st.files_scanned < MAX_FILES)
    (hpy : pyEndsWith e.name ".py" = true)
    (hbad : (!e.statOk || decide (MAX_FILE_SIZE < e.size)) = true) :
    (e.relPath, FileOutcome.status "Skipped: file too large") ∈
      (adStep st e).results := by
  unfold adStep
  have hns : ¬(MAX_FILES ≤ st.files_scanned) := Nat.not_le.mpr hcap
  simp [hpy, hns, hbad]

theorem ad_fold (entries : List DirEntry) : ∀ st : ADState,
    st.files_scanned + entries.length ≤ MAX_FILES →
    ((entries.foldl adStep st).files_scanned =
       st.files_scanned + (entries.filter adOk).length ∧
     (∀ m ∈ st.results, m ∈ (entries.foldl adStep st).results) ∧
     (∀ e ∈ entries, pyEndsWith e.name ".py" = true →
       (!e.statOk || decide (MAX_FILE_SIZE < e.size)) = true →
       (e.relPath, FileOutcome.status "Skipped: file too large") ∈
         (entries.foldl adStep st).results)) := by
  induction entries with
  | nil =>
    intro st h
    exact ⟨by simp, fun m hm => hm, fun e he => absurd he (List.not_mem_nil e)⟩
  | cons e rest ih =>
    intro st h
    have hcap : st.files_scanned < MAX_FILES := by
      simp only [List.length_cons] at h
      omega
    have hfs := adStep_fs st e hcap
    have hnext : (adStep st e).files_scanned + rest.length ≤ MAX_FILES := by
      rw [hfs]
      simp only [List.length_cons] at h
      split_ifs <;> omega
    obtain ⟨ih1, ih2, ih3⟩ := ih (adStep st e) hnext
    refine ⟨?_, ?_, ?_⟩
    · rw [List.foldl_cons, ih1, hfs]
      cases hae : adOk e with
      | true => simp [List.filter_cons, hae]; omega
      | false => simp [List.filter_cons, hae]
    · intro m hm
      exact ih2 m (adStep_results_mono st e m hm)
    · intro e2 he2 hpy hbad
      rcases List.mem_cons.mp he2 with rfl | he2r
      · exact ih2 _ (adStep_skiprec st e2 hcap hpy hbad)
      · exact ih3 e2 he2r hpy hbad

/-- Claim C6 (amended): in `analyze_directory` (for walks within the
1000-file operation limit) a `.py` file whose size probe fails or exceeds
the 10 MiB threshold is recorded in `results` as
`"Skipped: file too large"`, and `files_scanned` counts exactly the files
that pass every guard — so a skipped file is neither scanned nor treated
as clean.  (In `migration_report` the same oversized file is skipped
silently and recorded nowhere; see the counterexample.) -/
theorem C6_size_skip (entries : List DirEntry) (h : entries.length ≤ MAX_FILES) :
    (analyzeDirectoryCore entries).files_scanned = (entries.filter adOk).length ∧
    ∀ e ∈ entries, pyEndsWith e.name ".py" = true →
      (!e.statOk || decide (MAX_FILE_SIZE < e.size)) = true →
      (e.relPath, FileOutcome.status "Skipped: file too large") ∈
        (analyzeDirectoryCore entries).results := by
  obtain ⟨h1, _, h3⟩ := ad_fold entries ⟨[], 0, 0, 0, []⟩ (by simpa using h)
  exact ⟨by simpa [analyzeDirectoryCore] using h1,
    by simpa [analyzeDirectoryCore] using h3⟩

/-- Claim C6 (witness): a directory of three `.py` files, one oversized:
`analyze_directory` reports `files_scanned = 2` and lists the oversized
file as skipped with the size-limit reason. -/
theorem C6_witness :
    (analyzeDirectoryCore [dirDemo1, dirDemo2, dirDemoBig]).files_scanned = 2 ∧
    ("big.py", FileOutcome.status "Skipped: file too large") ∈
      (analyzeDirectoryCore [dirDemo1, dirDemo2, dirDemoBig]).results := by
  have h := C6_size_skip [dirDemo1, dirDemo2, dirDemoBig]
    (by norm_num [MAX_FILES])
  refine ⟨?_, ?_⟩
  · rw [h.1]
    decide
  · exact h.2 dirDemoBig (by simp) (by decide) (by decide)

/-- Claim C6 (counterexample): the same three files through the
`migration_report` loop: the oversized file is excluded from
`files_scanned` but recorded nowhere — `skipped_files` stays empty and no
`file_data` entry mentions it — contradicting the claim that every
directory scan records oversized files as skipped with a size-limit
reason. -/
theorem C6_counterexample :
    (migrationReportCore [dirDemo1, dirDemo2, dirDemoBig]).files_scanned = 2 ∧
    (migrationReportCore [dirDemo1, dirDemo2, dirDemoBig]).skipped_files = [] ∧
    ((migrationReportCore [dirDemo1, dirDemo2, dirDemoBig]).file_data.map
      (fun fd => fd.path)).contains "big.py" = false := by
  refine ⟨rfl, rfl, rfl⟩

/-- Claim C7 (counterexample): the `convert_file` write trace rewrites the
target in place, so a crash mid-write is observable with the target
holding `"b"` — a proper prefix of the new content `"bc"`, neither the old
content `"a"` nor the new one: the conversion engine's destructive writes
are not atomic. -/
theorem C7_counterexample :
    Crash c7fs0 (convertFileWrites "f.py" "a" "bc" false) c7half ∧
    c7half "f.py" = some "b" ∧
    c7fs0 "f.py" = some "a" ∧
    c7half "f.py" ≠ c7fs0 "f.py" ∧
    c7half "f.py" ≠ some "bc" := by
  refine ⟨?_, rfl, rfl, by decide, by decide⟩
  show Crash c7fs0 [WStep.wfile "f.py" "bc"] c7half
  exact Crash.mid _ _ _ _ (PartW.wfilePart c7fs0 "f.py" "bc" "b" "c" rfl)

/-- Claim C7 (amended): the `write_files` trace of `filesystem_server.py`
is atomic for the target: whenever a crash interrupts the
temporary-write-then-replace trace (with a temporary name distinct from
the target), the target holds either its old content or the complete new
content — never a half-written file.  (The `convert_file` backup and
in-place writes of `py2to3_server.py` do not use this pattern; see the
counterexample.) -/
theorem C7_atomic_write (fs : FS) (tmp path content : String) (out : FS)
    (hne : tmp ≠ path) (h : Crash fs (writeFilesWrites tmp path content) out) :
    out path = fs path ∨ out path = some content := by
  cases h with
  | here => left; rfl
  | mid fs0 st rest outp hp =>
    cases hp with
    | wtempPart p c pre rest2 hpr =>
      left
      show (if path = tmp then some pre else fs path) = fs path
      rw [if_neg (Ne.symm hne)]
  | next fs0 st rest outp h2 =>
    cases h2 with
    | here =>
      left
      show applyW fs (WStep.wtemp tmp content) path = fs path
      simp only [applyW]
      rw [if_neg (Ne.symm hne)]
    | mid fs1 st2 rest2 outp2 hp => cases hp
    | next fs1 st2 rest2 outp2 h3 =>
      cases h3 with
      | here =>
        right
        show applyW (applyW fs (WStep.wtemp tmp content)) (WStep.rep tmp path) path
          = some content
        simp [applyW]

/-- Claim C7 (witness): the atomicity statement applied to a concrete
completed `write_files` trace. -/
theorem C7_witness : c7final "p" = c7wfs0 "p" ∨ c7final "p" = some "c" :=
  C7_atomic_write c7wfs0 "t" "p" "c" c7final (by decide)
    (Crash.next _ _ _ _ (Crash.next _ _ _ _ (Crash.here _ _)))

/-! ## Reconciler lemmas -/

theorem getCount_cons (k : String) (v : Nat) (l : List (String × Nat))
    (r : String) :
    getCount ((k, v) :: l) r = if r == k then v else getCount l r := by
  by_cases h : (r == k) = true <;> simp [getCount, List.lookup, h]

theorem fixedIssues_cons (k : String) (c : Nat) (rest rem : List (String × Nat)) :
    fixedIssues ((k, c) :: rest) rem =
      (if getCount rem k < c then [(k, c - getCount rem k)] else []) ++
        fixedIssues rest rem := by
  unfold fixedIssues
  rw [List.filterMap_cons]
  by_cases h : getCount rem k < c
  · simp [h]
  · simp [h]

theorem fixed_keys_zero (orig rem : List (String × Nat)) (r : String)
    (h : r ∉ orig.map Prod.fst) : getCount (fixedIssues orig rem) r = 0 := by
  induction orig with
  | nil => rfl
  | cons kc rest ih =>
    obtain ⟨k, c⟩ := kc
    simp only [List.map_cons, List.mem_cons] at h
    push_neg at h
    obtain ⟨hrk, hrest⟩ := h
    rw [fixedIssues_cons]
    have hbk : (r == k) = false := by simp [hrk]
    by_cases hlt : getCount rem k < c
    · rw [if_pos hlt, List.singleton_append, getCount_cons, hbk]
      simp [ih hrest]
    · rw [if_neg hlt, List.nil_append]
      exact ih hrest

theorem fixedIssues_get (orig rem : List (String × Nat))
    (hnd : (orig.map Prod.fst).Nodup) (r : String) :
    getCount (fixedIssues orig rem) r = getCount orig r - getCount rem r := by
  induction orig with
  | nil => simp [fixedIssues, getCount]
  | cons kc rest ih =>
    obtain ⟨k, c⟩ := kc
    simp only [List.map_cons, List.nodup_cons] at hnd
    obtain ⟨hk, hnd2⟩ := hnd
    rw [fixedIssues_cons]
    by_cases hr : r = k
    · subst hr
      by_cases hlt : getCount rem r < c
      · rw [if_pos hlt, List.singleton_append, getCount_cons, getCount_cons]
        simp
      · rw [if_neg hlt, List.nil_append, fixed_keys_zero rest rem r hk,
          getCount_cons]
        simp
        omega
    · have hbk : (r == k) = false := by simp [hr]
      by_cases hlt : getCount rem k < c
      · rw [if_pos hlt, List.singleton_append, getCount_cons, getCount_cons, hbk]
        simp [ih hnd2]
      · rw [if_neg hlt, List.nil_append, getCount_cons, hbk]
        simp [ih hnd2]

/-- Claim C3: for every pair of scans (count dicts keyed uniquely, as
Python dicts are) and every rule `r`, the reconciler's fixed count equals
`max(0, original - remaining)`; consequently it is never negative and
never exceeds the original count. -/
theorem C3_fixed_max (orig rem : List (String × Nat))
    (hnd : (orig.map Prod.fst).Nodup) (r : String) :
    ((getCount (fixedIssues orig rem) r : Int) =
      max 0 ((getCount orig r : Int) - (getCount rem r : Int))) ∧
    getCount (fixedIssues orig rem) r ≤ getCount orig r := by
  have h := fixedIssues_get orig rem hnd r
  constructor
  · rw [h]
    omega
  · rw [h]
    exact Nat.sub_le _ _

/-- Claim C3 (witness): the spec scenario — 10 original `xrange`
occurrences, none remaining — gives `fixed = max(0, 10 - 0) = 10 ≤ 10`. -/
theorem C3_witness :
    ((getCount (fixedIssues [("xrange", 10)] []) "xrange" : Int) =
      max 0 ((getCount [("xrange", 10)] "xrange" : Int) -
        (getCount [] "xrange" : Int))) ∧
    getCount (fixedIssues [("xrange", 10)] []) "xrange" ≤
      getCount [("xrange", 10)] "xrange" :=
  C3_fixed_max [("xrange", 10)] [] (by simp) "xrange"
